/-
  Verification of the diff-scanning and verdict-aggregation engine of
  `robodev/reviewer.py` (Buster-Games/buster_games).

  The Python code is shallowly embedded: every `_check_*` detector, the
  diff parser `_parse_added_lines` and the orchestrator `run` are
  translated into executable Lean definitions.  Python dictionaries with
  `.get(key, default)` access are modelled as structures with `Option`
  fields plus `Option.getD`; Python exceptions (only `re.error` can
  escape this code) are modelled with `Except`.  Python truthiness of
  `str | None` values is modelled explicitly (`None` and `""` are falsy).
-/
import Mathlib

deriving instance DecidableEq for Except

namespace Robodev

/-! ## String helpers

Python string primitives used by `reviewer.py`, modelled over `List Char`
(the logical model of `String`) so that everything reduces in the kernel. -/

/-- Boolean "`p` is a prefix of `l`" over character lists
(model of Python `str.startswith`). -/
def startsChars : List Char → List Char → Bool
  | [], _ => true
  | _ :: _, [] => false
  | a :: as, b :: bs => a == b && startsChars as bs

/-- Boolean "`n` occurs as a contiguous substring of `l`"
(model of Python `needle in haystack`). -/
def containsChars (n : List Char) : List Char → Bool
  | [] => startsChars n []
  | c :: t => startsChars n (c :: t) || containsChars n t

/-- Python `s.startswith(pre)`. -/
def pyStartsWith (s pre : String) : Bool :=
  startsChars pre.data s.data

/-- Python `s[n:]` (slicing counts characters, as does `List.drop`). -/
def pyDrop (s : String) (n : Nat) : String :=
  String.mk (s.data.drop n)

/-- Python `needle in haystack` for strings. -/
def strContainsSub (hay needle : String) : Bool :=
  containsChars needle.data hay.data

/-- Python `s.lower()` (ASCII case folding; the paths and the literals
`"test"`/`"spec"` involved here are ASCII). -/
def lowerStr (s : String) : String :=
  String.mk (s.data.map Char.toLower)

/-- Python truthiness of a `str | None` value: `None` and `""` are falsy. -/
def optStrTruthy : Option String → Bool
  | none => false
  | some s => !s.data.isEmpty

/-- Helper for `pySplitlines`: split a character stream at line
boundaries, accumulating the current (reversed) line in `acc`. -/
def splitlinesAux : List Char → List Char → List String
  | [], acc => if acc.isEmpty then [] else [String.mk acc.reverse]
  | '\r' :: '\n' :: rest, acc => String.mk acc.reverse :: splitlinesAux rest []
  | '\n' :: rest, acc => String.mk acc.reverse :: splitlinesAux rest []
  | '\r' :: rest, acc => String.mk acc.reverse :: splitlinesAux rest []
  | c :: rest, acc => splitlinesAux rest (c :: acc)

/-- Python `str.splitlines()` restricted to the `\n`, `\r\n` and `\r`
boundaries (the further Unicode boundaries Python also recognises do not
occur in unified diffs).  No trailing empty line is produced for a
trailing newline, and `"".splitlines() == []`. -/
def pySplitlines (s : String) : List String :=
  splitlinesAux s.data []

/-! ## Data model

`ChangedFile` rows come from the platform API as dictionaries; the code
reads `f["filename"]`, `f["status"]` (mandatory) and `f.get("changes", 0)`
(optional).  Banned-pattern entries read `entry.get("regex", "")`,
`entry.get("label", regex)` and `entry.get("severity", "warning")`.  The
`code_review` section of the configuration is read with `.get` defaults
`500`, `20`, `[]`, `True`. -/

/-- One entry of the PR file list (`get_pr_files()`). -/
structure FileInfo where
  filename : String
  status : String
  changes : Option Nat
deriving DecidableEq, Repr

/-- One configured banned-pattern entry. -/
structure PatternEntry where
  regex : Option String
  label : Option String
  severity : Option String
deriving DecidableEq, Repr

/-- The `code_review` section of the configuration. -/
structure ReviewConfig where
  max_changed_lines_per_file : Option Nat
  max_files_per_pr : Option Nat
  banned_patterns : Option (List PatternEntry)
  require_tests : Option Bool

/-- What a completed `run()` produces: the review event passed to
`create_review`, the review body, and the value returned to `sys.exit`. -/
structure RunResult where
  event : String
  body : String
  exitCode : Nat
deriving DecidableEq, Repr

/-! ## Rule-based checks -/

/-- `_EXCLUDED_PATHS` — paths excluded from banned-pattern scanning and
test-coverage checks. -/
def _EXCLUDED_PATHS : List String := ["robodev/", ".github/", "AGENTS.md"]

/-- `any(name.startswith(ex) for ex in _EXCLUDED_PATHS)`. -/
def fileExcluded (name : String) : Bool :=
  _EXCLUDED_PATHS.any (fun ex => pyStartsWith name ex)

/-- The message appended by `_check_file_size` for one oversized file. -/
def sizeMessage (f : FileInfo) (max_changed : Nat) : String :=
  "- ⚠️ `" ++ f.filename ++ "` has **" ++ toString (f.changes.getD 0) ++
    "** changed lines (threshold: " ++ toString max_changed ++
    "). Consider splitting this change."

/-- `_check_file_size` — flag files with an excessive number of changed
lines.  The Python loop appends one message per file with
`f.get("changes", 0) > max_changed`, in file-list order. -/
def _check_file_size (files : List FileInfo) (max_changed : Nat) : List String :=
  match files with
  | [] => []
  | f :: rest =>
    if f.changes.getD 0 > max_changed then
      sizeMessage f max_changed :: _check_file_size rest max_changed
    else
      _check_file_size rest max_changed

/-- The single message `_check_large_pr` can produce. -/
def largeMessage (count max_files : Nat) : String :=
  "- ⚠️ This PR modifies **" ++ toString count ++ " files** (recommended max: " ++
    toString max_files ++ "). Large PRs are harder to review."

/-- `_check_large_pr` — warn if the PR touches too many files. -/
def _check_large_pr (files : List FileInfo) (max_files : Nat) : List String :=
  if files.length > max_files then [largeMessage files.length max_files] else []

/-! ## Diff parser -/

/-- The loop body of `_parse_added_lines`, processing the remaining diff
lines with the current-file cursor (`current_file: str | None`).  Note
Python's `if current_file and ...`: a cursor holding the empty string is
falsy and behaves like an unset cursor. -/
def parseAux : Option String → List String → List (String × String)
  | _, [] => []
  | current_file, raw_line :: rest =>
    if pyStartsWith raw_line "+++ b/" then
      -- Detect file header: +++ b/path/to/file
      let path := pyDrop raw_line 6
      if _EXCLUDED_PATHS.any (fun ex => pyStartsWith path ex) then
        parseAux none rest                    -- skip this file
      else
        parseAux (some path) rest
    else if optStrTruthy current_file && pyStartsWith raw_line "+"
              && !pyStartsWith raw_line "+++" then
      -- Only look at added lines inside a non-excluded file
      (current_file.getD "", pyDrop raw_line 1) :: parseAux current_file rest
    else
      parseAux current_file rest

/-- `_parse_added_lines` — extract `(filename, line_text)` for every
added line in a unified diff. -/
def _parse_added_lines (diff : String) : List (String × String) :=
  parseAux none (pySplitlines diff)

/-! ## Model of Python `re` on the literal-pattern subset

`_check_banned_patterns` hands each configured regex to `re.finditer`.
We model the fragment of Python regexes in which every character is
either an ordinary literal character or a backslash-escaped
metacharacter; such a pattern denotes a literal string, and
`re.finditer` then returns its leftmost, non-overlapping occurrences
(advancing by one position after an empty match).  A pattern outside
this fragment — one containing an unescaped metacharacter, a trailing
backslash, or an alphanumeric escape — is rejected by `reCompile`;
inputs used in theorems below are chosen so that `reCompile` rejects a
pattern exactly when Python's `re.compile` raises `re.error` on it
(e.g. `"("` is an unterminated group in Python). -/

/-- The regex metacharacters of Python `re`. -/
def reMetachars : List Char :=
  ['.', '^', '$', '*', '+', '?', '\x7b', '\x7d', '[', ']', '\\', '|', '(', ')']

/-- Compile a literal-fragment pattern to the character list it matches. -/
def reCompileAux : List Char → Option (List Char)
  | [] => some []
  | '\\' :: c :: rest =>
    if c.isAlphanum then none    -- class escapes and invalid escapes: out of the fragment
    else (reCompileAux rest).map (c :: ·)
  | ['\\'] => none               -- trailing backslash: re.error in Python
  | c :: rest =>
    if reMetachars.contains c then none
    else (reCompileAux rest).map (c :: ·)

/-- Model of `re.compile` on the literal fragment. -/
def reCompile (pattern : String) : Option (List Char) :=
  reCompileAux pattern.data

/-- Scanner behind `reFinditer`: walk the text position by position;
`skip` counts positions still covered by the previous match (Python's
`finditer` resumes after the end of each non-overlapping match, and
advances one position after an empty match). -/
def reFindAux (p : List Char) : List Char → Nat → List (List Char)
  | [], 0 => if p.isEmpty then [p] else []
  | [], _ + 1 => []
  | c :: rest, 0 =>
    if startsChars p (c :: rest) then p :: reFindAux p rest (p.length - 1)
    else reFindAux p rest 0
  | _ :: rest, s + 1 => reFindAux p rest s

/-- Model of `re.finditer` for a compiled literal pattern: the list of
matched texts of all leftmost non-overlapping matches, in order. -/
def reFinditer (p : List Char) (text : List Char) : List (List Char) :=
  reFindAux p text 0

/-! ## Banned-pattern detector -/

/-- The message `_check_banned_patterns` appends for one regex match:
`f"- {icon} **{label}** detected in diff near: \x60{match.group()[:80]}\x60"`. -/
def bannedMessage (icon label matched : String) : String :=
  "- " ++ icon ++ " **" ++ label ++ "** detected in diff near: `" ++ matched ++ "`"

/-- Severity of a banned-pattern Finding in the spec's
`enum \x7bwarning, error\x7d` (§3): `error` exactly when the configured
severity string is `"error"`, mirroring `icon = "❌" if severity ==
"error" else "⚠️"`.  The three other detectors only produce warnings. -/
def taggedSeverity (severity : String) : String :=
  if severity == "error" then "error" else "warning"

/-- The `for entry in patterns` loop of `_check_banned_patterns`,
producing `(message, severity)` pairs so that theorems can speak about
Finding severities; `severity` is in the spec's two-valued enum
(`taggedSeverity`).  `re.finditer` raises `re.error` on an invalid
pattern, which aborts the loop: modelled by `Except.error`. -/
def bannedLoopTagged (added_text : String) :
    List PatternEntry → Except String (List (String × String))
  | [] => .ok []
  | entry :: restPatterns =>
    let regex := entry.regex.getD ""
    let label := entry.label.getD regex
    let severity := entry.severity.getD "warning"
    let icon := if severity == "error" then "❌" else "⚠️"
    match reCompile regex with
    | none => .error ("re.error: " ++ regex)
    | some compiled =>
      match bannedLoopTagged added_text restPatterns with
      | .error e => .error e
      | .ok restIssues =>
        .ok (((reFinditer compiled added_text.data).map (fun m =>
          (bannedMessage icon label (String.mk (m.take 80)), taggedSeverity severity)))
          ++ restIssues)

/-- `_check_banned_patterns` — scan added lines in the diff for banned
patterns: join all added-line texts with `"\n"` and run every
configured pattern over the buffer (returning `[]` up front when the
diff contributed no added lines).  The issue strings are the first
components of `bannedLoopTagged`. -/
def _check_banned_patterns (diff : String) (patterns : List PatternEntry) :
    Except String (List String) :=
  let added_lines := _parse_added_lines diff
  if added_lines.isEmpty then .ok []
  else
    let added_text := String.intercalate "\n" (added_lines.map Prod.snd)
    (bannedLoopTagged added_text patterns).map (List.map Prod.fst)

/-! ## Test-coverage detector -/

/-- `f["status"] in ("added", "modified")`. -/
def statusAM (f : FileInfo) : Bool :=
  f.status == "added" || f.status == "modified"

/-- `"test" in name.lower() or "spec" in name.lower()`. -/
def testNamed (name : String) : Bool :=
  strContainsSub (lowerStr name) "test" || strContainsSub (lowerStr name) "spec"

/-- Split a character stream at every occurrence of `sep`
(the behaviour of `String.splitOn` for a one-character separator,
reimplemented structurally). -/
def splitOnCharAux (sep : Char) : List Char → List Char → List String
  | [], acc => [String.mk acc.reverse]
  | c :: rest, acc =>
    if c == sep then String.mk acc.reverse :: splitOnCharAux sep rest []
    else splitOnCharAux sep rest (c :: acc)

/-- Split a string at every occurrence of the character `sep`. -/
def splitOnChar (sep : Char) (s : String) : List String :=
  splitOnCharAux sep s.data []

/-- `PurePosixPath(name).name`: the last path component, with empty and
`"."` components dropped as `pathlib` normalisation does. -/
def pathName (p : String) : String :=
  ((((splitOnChar '/' p)).filter (fun c => c != "" && c != ".")).getLast?).getD ""

/-- `PurePosixPath(name).suffix`: `"." + text after the last dot` of the
final component, unless the dot is the first or last character. -/
def pathSuffix (p : String) : String :=
  let name := pathName p
  let r := name.data.reverse
  let post := r.takeWhile (fun c => c != '.')
  if post.length = 0 then ""
  else if post.length + 1 < r.length then String.mk ('.' :: post.reverse)
  else ""

/-- `PurePosixPath(name).suffix in (".py", ".js", ".ts", ".jsx", ".tsx")`. -/
def sourceExt (name : String) : Bool :=
  [".py", ".js", ".ts", ".jsx", ".tsx"].contains (pathSuffix name)

/-- The `for f in files` loop of `_check_test_coverage`, threading the
`src_changed` and `test_found` flags. -/
def tcLoop : List FileInfo → Bool → Bool → Bool × Bool
  | [], src_changed, test_found => (src_changed, test_found)
  | f :: rest, src_changed, test_found =>
    -- Skip infrastructure files — they don't need app-level tests
    if fileExcluded f.filename then tcLoop rest src_changed test_found
    else if statusAM f then
      if testNamed f.filename then tcLoop rest src_changed true
      else if sourceExt f.filename then tcLoop rest true test_found
      else tcLoop rest src_changed test_found
    else tcLoop rest src_changed test_found

/-- The single message `_check_test_coverage` can produce. -/
def testCoverageMessage : String :=
  "- ⚠️ Source files were changed but **no test files** were added or modified. Please add tests for new functionality."

/-- `_check_test_coverage` — warn if source files are added/modified but
no test files appear. -/
def _check_test_coverage (files : List FileInfo) (require_tests : Bool) : List String :=
  if !require_tests then []
  else
    let st := tcLoop files false false
    if st.1 && !st.2 then [testCoverageMessage] else []

/-! ## Spec-side comparison definition for the exclusion invariant -/

/-- The loop of `specTestCoverageNoExclusion`: `tcLoop` without the
excluded-prefix skip. -/
def tcLoopNoExclusion : List FileInfo → Bool → Bool → Bool × Bool
  | [], src_changed, test_found => (src_changed, test_found)
  | f :: rest, src_changed, test_found =>
    if statusAM f then
      if testNamed f.filename then tcLoopNoExclusion rest src_changed true
      else if sourceExt f.filename then tcLoopNoExclusion rest true test_found
      else tcLoopNoExclusion rest src_changed test_found
    else tcLoopNoExclusion rest src_changed test_found

/-- Modelled from the spec (§3 invariant, for the refinement claim C3):
the test-coverage detector as the spec describes it — "its output
depends on … the full file list without any additional per-detector
exclusion test", i.e. the same classifier with no excluded-prefix
skip inside the detector. -/
def specTestCoverageNoExclusion (files : List FileInfo) (require_tests : Bool) :
    List String :=
  if !require_tests then []
  else
    let st := tcLoopNoExclusion files false false
    if st.1 && !st.2 then [testCoverageMessage] else []

/-! ## Orchestrator (`run`) -/

/-- The issue-accumulation part of `run` (reviewer.py lines 195–208):
`issues = []` extended in order by `_check_file_size`,
`_check_large_pr`, `_check_banned_patterns` and
`_check_test_coverage`, with the configuration read through
`review_cfg.get(..., default)`.  An `re.error` escaping
`_check_banned_patterns` propagates. -/
def detectIssues (files : List FileInfo) (diff : String) (cfg : ReviewConfig) :
    Except String (List String) :=
  match _check_banned_patterns diff (cfg.banned_patterns.getD []) with
  | .error e => .error e
  | .ok bannedIssues =>
    .ok (_check_file_size files (cfg.max_changed_lines_per_file.getD 500)
      ++ _check_large_pr files (cfg.max_files_per_pr.getD 20)
      ++ bannedIssues
      ++ _check_test_coverage files (cfg.require_tests.getD true))

/-- The same finding list paired with each Finding's severity in the
spec's two-valued enum: the size, file-count and test-coverage
detectors only emit warnings, and a banned-pattern Finding carries
`taggedSeverity` of its configured severity. -/
def findingsTagged (files : List FileInfo) (diff : String) (cfg : ReviewConfig) :
    Except String (List (String × String)) :=
  let added_lines := _parse_added_lines diff
  let bannedTagged : Except String (List (String × String)) :=
    if added_lines.isEmpty then .ok []
    else bannedLoopTagged (String.intercalate "\n" (added_lines.map Prod.snd))
          (cfg.banned_patterns.getD [])
  match bannedTagged with
  | .error e => .error e
  | .ok bt =>
    .ok ((_check_file_size files (cfg.max_changed_lines_per_file.getD 500)).map
          (fun m => (m, "warning"))
      ++ (_check_large_pr files (cfg.max_files_per_pr.getD 20)).map
          (fun m => (m, "warning"))
      ++ bt
      ++ (_check_test_coverage files (cfg.require_tests.getD true)).map
          (fun m => (m, "warning")))

/-- `run()` — the main entry point, from the point where `files`, `diff`
and the configuration have been fetched.  The optional AI narrative
(`_ai_review`, an external call) is modelled as the pre-computed
`ai_summary : Option String` input; Python's `if ai_summary:` and
`if not issues and not ai_summary:` use string truthiness
(`optStrTruthy`).  Returns the review event handed to `create_review`,
the review body, and the value returned to `sys.exit`. -/
def run (files : List FileInfo) (diff : String) (cfg : ReviewConfig)
    (ai_summary : Option String) : Except String RunResult :=
  match detectIssues files diff cfg with
  | .error e => .error e
  | .ok issues =>
    let body1 := ["## 🤖 RoboDev Code Review\n"]
    let body2 :=
      if issues.isEmpty then body1
      else body1 ++ ["### Rule-Based Findings\n"] ++ issues ++ [""]
    let body3 :=
      if optStrTruthy ai_summary then
        body2 ++ ["### AI-Powered Review\n", ai_summary.getD "", ""]
      else body2
    let body4 :=
      if issues.isEmpty && !optStrTruthy ai_summary then
        body3 ++ ["✅ No issues detected — looking good!\n"]
      else body3
    -- Decide review verdict
    let has_errors := issues.any (fun i => strContainsSub i "❌")
    let event := if has_errors then "REQUEST_CHANGES" else "COMMENT"
    let body5 :=
      if has_errors then
        body4 ++ ["\n> 🚫 **Requesting changes** — please address the errors above."]
      else
        body4 ++ ["\n> ℹ️ Review complete. A human reviewer should still approve this PR."]
    let review_body := String.intercalate "\n" body5
    .ok ⟨event, review_body, if has_errors then 1 else 0⟩

/-! ## Helper lemmas -/

theorem startsChars_append_self (l t : List Char) : startsChars l (l ++ t) = true := by
  induction l with
  | nil => rfl
  | cons a as ih => simp [startsChars, ih]

theorem containsChars_of_startsChars {n l : List Char} (h : startsChars n l = true) :
    containsChars n l = true := by
  cases l with
  | nil => simpa [containsChars] using h
  | cons c t => simp [containsChars, h]

theorem containsChars_append_left (a : List Char) {n l : List Char}
    (h : containsChars n l = true) : containsChars n (a ++ l) = true := by
  induction a with
  | nil => simpa using h
  | cons c cs ih => simp [containsChars, ih]

/-- Every message built with the ❌ icon contains ❌ as a substring. -/
theorem bannedMessage_err_icon (label matched : String) :
    strContainsSub (bannedMessage "❌" label matched) "❌" = true := by
  show containsChars "❌".data ("- " ++ "❌" ++ " **" ++ label ++
    "** detected in diff near: `" ++ matched ++ "`").data = true
  simp only [String.data_append, List.append_assoc]
  exact containsChars_append_left "- ".data
    (containsChars_of_startsChars (startsChars_append_self "❌".data _))

/-- While the cursor is falsy (unset, or holding the empty string) and no
`+++ b/` header appears, the parser emits nothing and does not move the
cursor. -/
theorem parseAux_falsy_skips (cur : Option String) (ls rest : List String)
    (hcur : optStrTruthy cur = false)
    (hnh : ∀ l ∈ ls, pyStartsWith l "+++ b/" = false) :
    parseAux cur (ls ++ rest) = parseAux cur rest := by
  induction ls with
  | nil => rfl
  | cons l ls ih =>
    have h1 : pyStartsWith l "+++ b/" = false := hnh l (List.mem_cons_self l ls)
    simp only [List.cons_append, parseAux, h1, hcur, Bool.false_and, if_neg Bool.false_ne_true,
      Bool.false_eq_true, if_false]
    exact ih (fun x hx => hnh x (List.mem_cons_of_mem l hx))

/-- Per-file classifier "counts toward `src_changed`": the file is not
excluded, has status added/modified, is *not* test-named (the test-name
branch wins), and has a source extension. -/
def isSrcChange (f : FileInfo) : Bool :=
  !fileExcluded f.filename && statusAM f && !testNamed f.filename && sourceExt f.filename

/-- Per-file classifier "counts toward `test_found`". -/
def isTestChange (f : FileInfo) : Bool :=
  !fileExcluded f.filename && statusAM f && testNamed f.filename

/-- The flag-threading loop of `_check_test_coverage` computes exactly
the two `any`-style classifiers. -/
theorem tcLoop_eq (files : List FileInfo) (s t : Bool) :
    tcLoop files s t = (s || files.any isSrcChange, t || files.any isTestChange) := by
  induction files generalizing s t with
  | nil => simp [tcLoop]
  | cons f rest ih =>
    by_cases he : fileExcluded f.filename
    · simp [tcLoop, he, ih, isSrcChange, isTestChange]
    · by_cases ha : statusAM f
      · by_cases ht : testNamed f.filename
        · simp [tcLoop, he, ha, ht, ih, isSrcChange, isTestChange]
        · by_cases hs : sourceExt f.filename
          · simp [tcLoop, he, ha, ht, hs, ih, isSrcChange, isTestChange]
          · simp [tcLoop, he, ha, ht, hs, ih, isSrcChange, isTestChange]
      · simp [tcLoop, he, ha, ih, isSrcChange, isTestChange]

/-- The in-detector exclusion skip of `tcLoop` is the same as
pre-filtering the file list and running the no-exclusion loop. -/
theorem tcLoop_eq_filter (files : List FileInfo) (s t : Bool) :
    tcLoop files s t =
      tcLoopNoExclusion (files.filter (fun f => !fileExcluded f.filename)) s t := by
  induction files generalizing s t with
  | nil => rfl
  | cons f rest ih =>
    by_cases he : fileExcluded f.filename
    · simp [tcLoop, he, List.filter_cons, ih]
    · simp [tcLoop, tcLoopNoExclusion, he, List.filter_cons, ih]

/-- No entry emitted by the parser has a text beginning with `++`
(equivalently: no raw line beginning with `+++` is ever emitted, since
an emitted entry's text is its raw line minus the leading `+`). -/
theorem parseAux_no_tripleplus (lines : List String) (cur : Option String)
    (pr : String × String) (hmem : pr ∈ parseAux cur lines) :
    pyStartsWith pr.2 "++" = false := by
  induction lines generalizing cur with
  | nil => simp [parseAux] at hmem
  | cons raw rest ih =>
    by_cases h1 : pyStartsWith raw "+++ b/"
    · by_cases h2 : _EXCLUDED_PATHS.any (fun ex => pyStartsWith (pyDrop raw 6) ex)
      · rw [parseAux, if_pos h1, if_pos h2] at hmem
        exact ih _ hmem
      · rw [parseAux, if_pos h1, if_neg h2] at hmem
        exact ih _ hmem
    · by_cases h2 : (optStrTruthy cur && pyStartsWith raw "+" && !pyStartsWith raw "+++") = true
      · rw [parseAux, if_neg h1, if_pos h2] at hmem
        rcases List.mem_cons.mp hmem with heq | hmem2
        · subst heq
          have hplus : pyStartsWith raw "+" = true := by
            have := (Bool.and_eq_true _ _).mp h2
            exact ((Bool.and_eq_true _ _).mp this.1).2
          have h3 : pyStartsWith raw "+++" = false := by
            have := (Bool.and_eq_true _ _).mp h2
            simpa using this.2
          show pyStartsWith (pyDrop raw 1) "++" = false
          unfold pyStartsWith pyDrop at *
          have hp : ("+" : String).data = ['+'] := rfl
          have hpp : ("++" : String).data = ['+', '+'] := rfl
          have hppp : ("+++" : String).data = ['+', '+', '+'] := rfl
          rw [hp] at hplus; rw [hppp] at h3; rw [hpp]
          cases hd : raw.data with
          | nil => rw [hd] at hplus; simp [startsChars] at hplus
          | cons c tl =>
            rw [hd] at hplus h3
            have hc : ('+' == c) = true := by
              by_contra hne
              simp [startsChars, Bool.not_eq_true] at hplus hne
              simp [hne] at hplus
            have hc2 : c = '+' := (beq_iff_eq.mp hc).symm
            subst hc2
            simp only [startsChars, beq_self_eq_true, Bool.true_and] at h3
            simpa [startsChars] using h3
        · exact ih _ hmem2
      · rw [parseAux, if_neg h1, if_neg h2] at hmem
        exact ih _ hmem

/-- Every pattern Finding tagged `error` carries the ❌ icon in its
message (the icon is chosen by the same `severity == "error"` test). -/
theorem bannedLoopTagged_error_icon (patterns : List PatternEntry) (text : String)
    (res : List (String × String)) (hok : bannedLoopTagged text patterns = .ok res)
    (p : String × String) (hmem : p ∈ res) (herr : p.2 = "error") :
    strContainsSub p.1 "❌" = true := by
  induction patterns generalizing res with
  | nil =>
    rw [bannedLoopTagged] at hok
    cases hok
    simp at hmem
  | cons entry rest ih =>
    rw [bannedLoopTagged] at hok
    cases hcomp : reCompile (entry.regex.getD "") with
    | none => rw [hcomp] at hok; cases hok
    | some compiled =>
      rw [hcomp] at hok
      cases hrest : bannedLoopTagged text rest with
      | error e => rw [hrest] at hok; cases hok
      | ok restIssues =>
        rw [hrest] at hok
        cases hok
        rcases List.mem_append.mp hmem with hm | hm
        · rcases List.mem_map.mp hm with ⟨m, _, hpm⟩
          subst hpm
          by_cases hsev : ((entry.severity.getD "warning") == "error") = true
          · simpa [hsev] using bannedMessage_err_icon _ _
          · have herr2 : taggedSeverity (entry.severity.getD "warning") = "error" := by
              simpa using herr
            rw [taggedSeverity, if_neg hsev] at herr2
            exact absurd herr2 (by decide)
        · exact ih restIssues hrest hm

theorem map_fst_comp_warning :
    (Prod.fst ∘ fun (m : String) => (m, "warning")) = id := by
  funext m; rfl

/-- The plain issue strings of `run` are the first components of the
severity-tagged findings. -/
theorem detectIssues_eq_map_fst (files : List FileInfo) (diff : String)
    (cfg : ReviewConfig) :
    detectIssues files diff cfg =
      Except.map (List.map Prod.fst) (findingsTagged files diff cfg) := by
  rw [detectIssues, findingsTagged, _check_banned_patterns]
  by_cases hemp : (_parse_added_lines diff).isEmpty
  · simp [hemp, Except.map, List.map_map, map_fst_comp_warning, List.map_id]
  · simp only [hemp, if_false, Bool.false_eq_true]
    cases hb : bannedLoopTagged
        (String.intercalate "\n" ((_parse_added_lines diff).map Prod.snd))
        (cfg.banned_patterns.getD []) with
    | error e => simp [Except.map]
    | ok bt =>
      simp [Except.map, List.map_append, List.map_map, map_fst_comp_warning, List.map_id]

/-- The review event of a completed `run` is decided by the
`"❌" in i` test over the accumulated issues. -/
theorem run_event_eq (files : List FileInfo) (diff : String) (cfg : ReviewConfig)
    (ai : Option String) (issues : List String)
    (h : detectIssues files diff cfg = .ok issues) :
    Except.map RunResult.event (run files diff cfg ai) =
      .ok (if issues.any (fun i => strContainsSub i "❌") then "REQUEST_CHANGES"
           else "COMMENT") := by
  rw [run, h]
  by_cases he : issues.any (fun i => strContainsSub i "❌") = true
  · simp [Except.map, he]
  · simp only [Bool.not_eq_true] at he
    simp [Except.map, he]

/-- The exit code of a completed `run` is decided by the same test. -/
theorem run_exit_eq (files : List FileInfo) (diff : String) (cfg : ReviewConfig)
    (ai : Option String) (issues : List String)
    (h : detectIssues files diff cfg = .ok issues) :
    Except.map RunResult.exitCode (run files diff cfg ai) =
      .ok (if issues.any (fun i => strContainsSub i "❌") then 1 else 0) := by
  rw [run, h]
  by_cases he : issues.any (fun i => strContainsSub i "❌") = true
  · simp [Except.map, he]
  · simp only [Bool.not_eq_true] at he
    simp [Except.map, he]

/-- When every configured pattern compiles, the pattern loop is the
per-pattern concatenation of one tagged Finding per `finditer` match:
the message carries the icon chosen by `severity == "error"` and the
matched text truncated to 80 characters, the tag is the two-valued
severity. -/
theorem bannedLoopTagged_flatMap (text : String) (patterns : List PatternEntry)
    (hval : ∀ e ∈ patterns, (reCompile (e.regex.getD "")).isSome = true) :
    bannedLoopTagged text patterns = .ok (patterns.flatMap (fun e =>
      (reFinditer ((reCompile (e.regex.getD "")).getD []) text.data).map (fun m =>
        (bannedMessage (if (e.severity.getD "warning") == "error" then "❌" else "⚠️")
            (e.label.getD (e.regex.getD "")) (String.mk (m.take 80)),
         taggedSeverity (e.severity.getD "warning"))))) := by
  induction patterns with
  | nil => rfl
  | cons e rest ih =>
    have he := hval e (List.mem_cons_self e rest)
    cases hcomp : reCompile (e.regex.getD "") with
    | none => rw [hcomp] at he; simp at he
    | some compiled =>
      rw [bannedLoopTagged, hcomp,
        ih (fun x hx => hval x (List.mem_cons_of_mem _ hx))]
      simp [List.flatMap_cons, hcomp]

/-- Every severity-tagged Finding of a review pass that is tagged
`error` carries the ❌ icon in its message; the size, file-count and
test-coverage Findings are all tagged `warning`. -/
theorem findingsTagged_error_icon (files : List FileInfo) (diff : String)
    (cfg : ReviewConfig) (tagged : List (String × String))
    (ht : findingsTagged files diff cfg = .ok tagged)
    (p : String × String) (hmem : p ∈ tagged) (herr : p.2 = "error") :
    strContainsSub p.1 "❌" = true := by
  have warnNotErr : ∀ (l : List String) (q : String × String),
      q ∈ l.map (fun m => (m, "warning")) → q.2 = "error" → False := by
    intro l q hq hq2
    rcases List.mem_map.mp hq with ⟨m, _, hqm⟩
    subst hqm
    have hq3 : ("warning" : String) = "error" := hq2
    exact absurd hq3 (by decide)
  rw [findingsTagged] at ht
  by_cases hemp : (_parse_added_lines diff).isEmpty
  · simp only [hemp, if_true] at ht
    cases ht
    rcases List.mem_append.mp hmem with hm | hm4
    · rcases List.mem_append.mp hm with hm12 | hm3
      · rcases List.mem_append.mp hm12 with hm1 | hm2
        · exact (warnNotErr _ _ hm1 herr).elim
        · exact (warnNotErr _ _ hm2 herr).elim
      · simp at hm3
    · exact (warnNotErr _ _ hm4 herr).elim
  · simp only [hemp, if_false, Bool.false_eq_true] at ht
    cases hbt : bannedLoopTagged
        (String.intercalate "\n" ((_parse_added_lines diff).map Prod.snd))
        (cfg.banned_patterns.getD []) with
    | error e => rw [hbt] at ht; cases ht
    | ok bt =>
      rw [hbt] at ht
      cases ht
      rcases List.mem_append.mp hmem with hm | hm4
      · rcases List.mem_append.mp hm with hm12 | hm3
        · rcases List.mem_append.mp hm12 with hm1 | hm2
          · exact (warnNotErr _ _ hm1 herr).elim
          · exact (warnNotErr _ _ hm2 herr).elim
        · exact bannedLoopTagged_error_icon _ _ _ hbt p hm3 herr
      · exact (warnNotErr _ _ hm4 herr).elim

/-- If some tagged Finding has severity `error`, the `"❌" in i` test
over the plain issue strings fires. -/
theorem issues_any_icon_of_error (files : List FileInfo) (diff : String)
    (cfg : ReviewConfig) (issues : List String) (tagged : List (String × String))
    (hi : detectIssues files diff cfg = .ok issues)
    (ht : findingsTagged files diff cfg = .ok tagged)
    (herr : ∃ p ∈ tagged, p.2 = "error") :
    issues.any (fun i => strContainsSub i "❌") = true := by
  rcases herr with ⟨p, hmem, hp⟩
  have hicon := findingsTagged_error_icon files diff cfg tagged ht p hmem hp
  have hiss : issues = tagged.map Prod.fst := by
    have heq := detectIssues_eq_map_fst files diff cfg
    rw [hi, ht] at heq
    simpa [Except.map] using heq
  rw [hiss]
  exact List.any_eq_true.mpr ⟨p.1, List.mem_map_of_mem _ hmem, hicon⟩

/-! ## Claims -/

/-- C1 (amended): the review outcome of a completed run is
`REQUEST_CHANGES` iff some accumulated issue message contains the ❌
marker.  Every Finding tagged `error` carries ❌ in its message, so any
error-severity Finding still forces `REQUEST_CHANGES`; but the converse
of the original claim fails, because a warning message can also embed ❌
(see the counterexample). -/
theorem c1_outcome_iff_icon (files : List FileInfo) (diff : String)
    (cfg : ReviewConfig) (ai : Option String) (issues : List String)
    (tagged : List (String × String))
    (hi : detectIssues files diff cfg = .ok issues)
    (ht : findingsTagged files diff cfg = .ok tagged) :
    ((∃ p ∈ tagged, p.2 = "error") →
      Except.map RunResult.event (run files diff cfg ai) = .ok "REQUEST_CHANGES") ∧
    (Except.map RunResult.event (run files diff cfg ai) = .ok "REQUEST_CHANGES" ↔
      issues.any (fun i => strContainsSub i "❌") = true) := by
  have hev := run_event_eq files diff cfg ai issues hi
  constructor
  · intro herr
    have hany := issues_any_icon_of_error files diff cfg issues tagged hi ht herr
    rw [hev, if_pos hany]
  · rw [hev]
    by_cases hany : issues.any (fun i => strContainsSub i "❌") = true
    · simp [hany]
    · simp only [Bool.not_eq_true] at hany
      rw [hany]
      simp only [Bool.false_eq_true, if_false]
      constructor
      · intro hcontra
        exact absurd (Except.ok.inj hcontra) (by decide)
      · intro hcontra
        exact absurd hcontra (by decide)

/-- C1 counterexample: a run whose Findings are all warnings (a size
warning for a file named `❌.py` and the test-coverage warning) still
yields outcome `REQUEST_CHANGES`, because the filename puts ❌ into the
warning message and the verdict test is `"❌" in i`. -/
theorem c1_counterexample :
    Except.map (List.map Prod.snd)
      (findingsTagged [⟨"❌.py", "modified", some 501⟩] "" ⟨none, none, none, none⟩) =
      .ok ["warning", "warning"] ∧
    Except.map RunResult.event
      (run [⟨"❌.py", "modified", some 501⟩] "" ⟨none, none, none, none⟩ none) =
      .ok "REQUEST_CHANGES" :=
  ⟨by decide, by decide⟩

/-- C1 witness: the amended theorem applied to the trivial run (no
files, empty diff, no narrative), which is a `COMMENT`. -/
theorem c1_witness :
    ((∃ p ∈ ([] : List (String × String)), p.2 = "error") →
      Except.map RunResult.event (run [] "" ⟨none, none, none, none⟩ none) =
        .ok "REQUEST_CHANGES") ∧
    (Except.map RunResult.event (run [] "" ⟨none, none, none, none⟩ none) =
        .ok "REQUEST_CHANGES" ↔
      ([] : List String).any (fun i => strContainsSub i "❌") = true) :=
  c1_outcome_iff_icon [] "" ⟨none, none, none, none⟩ none [] [] rfl rfl

/-- C2 (code_bug): the spec requires the banned-pattern detector to skip
an invalid regex and never throw, but the code calls `re.finditer`
unprotected: with one added line and the invalid pattern `"("`
(unterminated group — `re.error` in Python) the detector aborts with the
exception instead of skipping.  Only when the diff contributes no added
lines does the early return bypass compilation. -/
theorem c2_invalid_regex_aborts :
    _check_banned_patterns "+++ b/app.py\n+x" [⟨some "(", none, none⟩] =
      .error "re.error: (" ∧
    _check_banned_patterns "" [⟨some "(", none, none⟩] = .ok [] :=
  ⟨by decide, by decide⟩

/-- C3 (amended): exclusion is *not* applied only at parse time: the
test-coverage detector re-applies the excluded-prefix filter internally
to the file list — it behaves exactly like the spec's no-exclusion
detector run on the pre-filtered file list. -/
theorem c3_test_coverage_refilters (files : List FileInfo) (require_tests : Bool) :
    _check_test_coverage files require_tests =
      specTestCoverageNoExclusion
        (files.filter (fun f => !fileExcluded f.filename)) require_tests := by
  rw [_check_test_coverage, specTestCoverageNoExclusion, tcLoop_eq_filter]

/-- C3 counterexample: on the file list `[robodev/tool.py (modified)]`
the detector returns no findings while the spec's "full file list, no
per-detector exclusion test" computation returns the warning — so the
detector does apply an additional per-detector exclusion test. -/
theorem c3_counterexample :
    _check_test_coverage [⟨"robodev/tool.py", "modified", none⟩] true = [] ∧
    specTestCoverageNoExclusion [⟨"robodev/tool.py", "modified", none⟩] true =
      [testCoverageMessage] :=
  ⟨by decide, by decide⟩

/-- C4: for a completed run the exit code is 1 iff the outcome is
`REQUEST_CHANGES`, and any single error-severity Finding forces outcome
`REQUEST_CHANGES` and exit code 1, however many warnings coexist. -/
theorem c4_exit_code (files : List FileInfo) (diff : String)
    (cfg : ReviewConfig) (ai : Option String) (issues : List String)
    (tagged : List (String × String))
    (hi : detectIssues files diff cfg = .ok issues)
    (ht : findingsTagged files diff cfg = .ok tagged) :
    (Except.map RunResult.exitCode (run files diff cfg ai) = .ok 1 ↔
      Except.map RunResult.event (run files diff cfg ai) = .ok "REQUEST_CHANGES") ∧
    ((∃ p ∈ tagged, p.2 = "error") →
      Except.map RunResult.event (run files diff cfg ai) = .ok "REQUEST_CHANGES" ∧
      Except.map RunResult.exitCode (run files diff cfg ai) = .ok 1) := by
  have hev := run_event_eq files diff cfg ai issues hi
  have hex := run_exit_eq files diff cfg ai issues hi
  constructor
  · rw [hev, hex]
    by_cases hany : issues.any (fun i => strContainsSub i "❌") = true
    · simp [hany]
    · simp only [Bool.not_eq_true] at hany
      rw [hany]
      simp only [Bool.false_eq_true, if_false]
      constructor
      · intro hcontra
        exact absurd (Except.ok.inj hcontra) (by decide)
      · intro hcontra
        exact absurd (Except.ok.inj hcontra) (by decide)
  · intro herr
    have hany := issues_any_icon_of_error files diff cfg issues tagged hi ht herr
    rw [hev, hex, if_pos hany, if_pos hany]
    exact ⟨rfl, rfl⟩

/-- C4 witness: a run with one error-severity banned-pattern Finding and
two warning Findings (oversized file, missing tests) requests changes
and exits 1. -/
theorem c4_witness :
    Except.map RunResult.event
      (run [⟨"big.py", "modified", some 501⟩] "+++ b/app.py\n+eval(x)"
        ⟨none, none, some [⟨some "eval\\(", none, some "error"⟩], none⟩ none) =
      .ok "REQUEST_CHANGES" ∧
    Except.map RunResult.exitCode
      (run [⟨"big.py", "modified", some 501⟩] "+++ b/app.py\n+eval(x)"
        ⟨none, none, some [⟨some "eval\\(", none, some "error"⟩], none⟩ none) =
      .ok 1 :=
  (c4_exit_code [⟨"big.py", "modified", some 501⟩] "+++ b/app.py\n+eval(x)"
      ⟨none, none, some [⟨some "eval\\(", none, some "error"⟩], none⟩ none
      (sizeMessage ⟨"big.py", "modified", some 501⟩ 500 ::
        "- ❌ **eval\\(** detected in diff near: `eval(`" :: [testCoverageMessage])
      ((sizeMessage ⟨"big.py", "modified", some 501⟩ 500, "warning") ::
        ("- ❌ **eval\\(** detected in diff near: `eval(`", "error") ::
        [(testCoverageMessage, "warning")])
      (by decide) (by decide)).2
    ⟨("- ❌ **eval\\(** detected in diff near: `eval(`", "error"), by decide, rfl⟩

/-- C5: with `requireTests` true, the test-coverage detector emits
exactly the single warning message iff some non-excluded added/modified
file classifies as source (`isSrcChange`) and no non-excluded
added/modified file classifies as test (`isTestChange`); otherwise it
emits nothing; and the test-name check takes precedence, so a
test-named file never counts toward "source changed". -/
theorem c5_test_coverage (files : List FileInfo) :
    (_check_test_coverage files true = [testCoverageMessage] ↔
      (files.any isSrcChange = true ∧ files.any isTestChange = false)) ∧
    (_check_test_coverage files true = [] ↔
      ¬(files.any isSrcChange = true ∧ files.any isTestChange = false)) ∧
    (∀ f : FileInfo, testNamed f.filename = true → isSrcChange f = false) := by
  have hloop := tcLoop_eq files false false
  have hcheck : _check_test_coverage files true =
      if files.any isSrcChange && !files.any isTestChange then [testCoverageMessage]
      else [] := by
    rw [_check_test_coverage]
    simp only [Bool.not_true, Bool.false_eq_true, if_false, hloop, Bool.false_or]
  refine ⟨?_, ?_, ?_⟩
  · rw [hcheck]
    by_cases hs : files.any isSrcChange = true
    · by_cases htst : files.any isTestChange = true
      · simp [hs, htst]
      · simp only [Bool.not_eq_true] at htst
        simp [hs, htst]
    · simp only [Bool.not_eq_true] at hs
      simp [hs]
  · rw [hcheck]
    by_cases hs : files.any isSrcChange = true
    · by_cases htst : files.any isTestChange = true
      · simp [hs, htst]
      · simp only [Bool.not_eq_true] at htst
        simp [hs, htst]
    · simp only [Bool.not_eq_true] at hs
      simp [hs]
  · intro f hname
    simp [isSrcChange, hname]

/-- C5 witness: the spec's own example — `src/app.py` modified with no
test file yields the single warning; adding `tests/test_app.py` yields
zero findings. -/
theorem c5_witness :
    _check_test_coverage [⟨"src/app.py", "modified", none⟩] true =
      [testCoverageMessage] ∧
    _check_test_coverage
      [⟨"src/app.py", "modified", none⟩, ⟨"tests/test_app.py", "added", none⟩]
      true = [] :=
  ⟨(c5_test_coverage [⟨"src/app.py", "modified", none⟩]).1.mpr (by decide),
   (c5_test_coverage
      [⟨"src/app.py", "modified", none⟩, ⟨"tests/test_app.py", "added", none⟩]).2.1.mpr
    (by decide)⟩

/-- C6 (amended): provided the diff contributes at least one added line
and every configured pattern compiles, the banned-pattern detector
emits, per pattern in order, one Finding per non-overlapping `finditer`
match against the newline-joined buffer of added-line texts — the
message carries the icon chosen by `severity == "error"` (❌ for
`error`, ⚠️ otherwise) and the matched text truncated to 80 characters,
and the tagged severity is `error` exactly for configured severity
`"error"`.  When the diff yields no added lines the detector returns no
findings without scanning (see the counterexample). -/
theorem c6_banned_patterns (diff : String) (patterns : List PatternEntry)
    (hne : _parse_added_lines diff ≠ [])
    (hval : ∀ e ∈ patterns, (reCompile (e.regex.getD "")).isSome = true) :
    bannedLoopTagged (String.intercalate "\n" ((_parse_added_lines diff).map Prod.snd))
        patterns =
      .ok (patterns.flatMap (fun e =>
        (reFinditer ((reCompile (e.regex.getD "")).getD [])
            (String.intercalate "\n" ((_parse_added_lines diff).map Prod.snd)).data).map
          (fun m =>
            (bannedMessage
                (if (e.severity.getD "warning") == "error" then "❌" else "⚠️")
                (e.label.getD (e.regex.getD "")) (String.mk (m.take 80)),
             taggedSeverity (e.severity.getD "warning"))))) ∧
    _check_banned_patterns diff patterns =
      .ok ((patterns.flatMap (fun e =>
        (reFinditer ((reCompile (e.regex.getD "")).getD [])
            (String.intercalate "\n" ((_parse_added_lines diff).map Prod.snd)).data).map
          (fun m =>
            (bannedMessage
                (if (e.severity.getD "warning") == "error" then "❌" else "⚠️")
                (e.label.getD (e.regex.getD "")) (String.mk (m.take 80)),
             taggedSeverity (e.severity.getD "warning"))))).map Prod.fst) := by
  have hflat := bannedLoopTagged_flatMap
    (String.intercalate "\n" ((_parse_added_lines diff).map Prod.snd)) patterns hval
  refine ⟨hflat, ?_⟩
  rw [_check_banned_patterns]
  have hemp : (_parse_added_lines diff).isEmpty = false := by
    cases hp : _parse_added_lines diff with
    | nil => exact absurd hp hne
    | cons a t => rfl
  simp only [hemp, Bool.false_eq_true, if_false]
  rw [hflat]
  rfl

/-- C6 counterexample: for a diff with no added lines and the (valid,
empty) pattern `""`, the newline-joined buffer is `""` and the pattern
has exactly one match against it, yet the early `if not added_lines:
return []` makes the detector emit zero Findings instead of one per
match. -/
theorem c6_counterexample :
    _check_banned_patterns "" [⟨some "", none, none⟩] = .ok [] ∧
    (reFinditer ((reCompile "").getD [])
        (String.intercalate "\n" ((_parse_added_lines "").map Prod.snd)).data).length
      = 1 :=
  ⟨by decide, by decide⟩

/-- C6 witness: the spec's example — added line `eval(userInput)` and the
single pattern `eval\(` with severity `error` produce exactly one
Finding, tagged `error`, with the ❌ icon and the matched text. -/
theorem c6_witness :
    _check_banned_patterns "+++ b/app.py\n+eval(userInput)"
        [⟨some "eval\\(", none, some "error"⟩] =
      .ok ["- ❌ **eval\\(** detected in diff near: `eval(`"] ∧
    bannedLoopTagged "eval(userInput)" [⟨some "eval\\(", none, some "error"⟩] =
      .ok [("- ❌ **eval\\(** detected in diff near: `eval(`", "error")] :=
  ⟨((c6_banned_patterns "+++ b/app.py\n+eval(userInput)"
      [⟨some "eval\\(", none, some "error"⟩] (by decide) (by decide)).2).trans
    (by decide),
   ((c6_banned_patterns "+++ b/app.py\n+eval(userInput)"
      [⟨some "eval\\(", none, some "error"⟩] (by decide) (by decide)).1).trans
    (by decide)⟩

/-- C7: once a `+++ b/<path>` header whose path starts with an excluded
prefix is processed, the cursor is cleared and, however many following
lines there are, none of them produces an entry until the next
`+++ b/` header line: the parse of the whole suffix equals the parse of
the remainder after the header-free segment. -/
theorem c7_excluded_header_drops (cur : Option String) (hd : String)
    (ls rest : List String)
    (hdr : pyStartsWith hd "+++ b/" = true)
    (hex : _EXCLUDED_PATHS.any (fun ex => pyStartsWith (pyDrop hd 6) ex) = true)
    (hnh : ∀ l ∈ ls, pyStartsWith l "+++ b/" = false) :
    parseAux cur (hd :: (ls ++ rest)) = parseAux none rest := by
  rw [parseAux, if_pos hdr, if_pos hex]
  exact parseAux_falsy_skips none ls rest rfl hnh

/-- C7 witness: an excluded header followed by two added lines yields
the empty parse. -/
theorem c7_witness :
    parseAux none ("+++ b/robodev/x.py" :: (["+a", "+b"] ++ [])) =
      parseAux none [] :=
  c7_excluded_header_drops none "+++ b/robodev/x.py" ["+a", "+b"] []
    (by decide) (by decide) (by decide)

/-- C8: a diff line beginning with `+++` — including an added code line
whose text begins with `++`, which appears in the diff as `+++...` — is
never emitted as an entry: every emitted entry's text (the raw line
minus its leading `+`) fails to start with `++`.  Concretely, in a diff
containing the added line `++i;` (raw `+++i;`) only the ordinary added
line survives. -/
theorem c8_tripleplus_never_emitted :
    (∀ (diff : String) (pr : String × String), pr ∈ _parse_added_lines diff →
      pyStartsWith pr.2 "++" = false) ∧
    _parse_added_lines "+++ b/a.py\n+++i;\n+x" = [("a.py", "x")] := by
  constructor
  · intro diff pr hmem
    exact parseAux_no_tripleplus _ _ _ hmem
  · decide

/-- C8 witness: the general half applied to a concrete diff and entry. -/
theorem c8_witness :
    ("a.py", "x") ∈ _parse_added_lines "+++ b/a.py\n+++i;\n+x" ∧
    pyStartsWith "x" "++" = false :=
  ⟨by decide,
   c8_tripleplus_never_emitted.1 "+++ b/a.py\n+++i;\n+x" ("a.py", "x") (by decide)⟩

/-- C9: the header `+++ b/` with an empty path sets the cursor to the
empty string, which is falsy — so all added lines until the next header
produce zero entries, even though the empty path matches no excluded
prefix. -/
theorem c9_empty_path_header (cur : Option String) (ls rest : List String)
    (hnh : ∀ l ∈ ls, pyStartsWith l "+++ b/" = false) :
    parseAux cur ("+++ b/" :: (ls ++ rest)) = parseAux (some "") rest ∧
    _EXCLUDED_PATHS.any (fun ex => pyStartsWith "" ex) = false := by
  constructor
  · rw [parseAux, if_pos (by decide), if_neg (by decide)]
    exact parseAux_falsy_skips (some (pyDrop "+++ b/" 6)) ls rest (by decide) hnh
  · decide

/-- C9 witness: lines after an empty-path header are dropped until the
next header. -/
theorem c9_witness :
    parseAux none ("+++ b/" :: (["+dropped"] ++ ["+++ b/ok.py", "+kept"])) =
      parseAux (some "") ["+++ b/ok.py", "+kept"] ∧
    _EXCLUDED_PATHS.any (fun ex => pyStartsWith "" ex) = false :=
  c9_empty_path_header none ["+dropped"] ["+++ b/ok.py", "+kept"] (by decide)

/-- C10: the size and file-count detectors apply no exclusion: a file
with an excluded path and enough changed lines still contributes its
size message, and a file list consisting entirely of excluded paths
still triggers the file-count warning when it is long enough. -/
theorem c10_size_count_no_exclusion :
    (∀ (fs : List FileInfo) (m : Nat) (f : FileInfo), f ∈ fs →
      fileExcluded f.filename = true → f.changes.getD 0 > m →
      sizeMessage f m ∈ _check_file_size fs m) ∧
    (∀ (fs : List FileInfo) (k : Nat), (∀ f ∈ fs, fileExcluded f.filename = true) →
      fs.length > k → _check_large_pr fs k = [largeMessage fs.length k]) := by
  constructor
  · intro fs m f hmem hexcl hgt
    induction fs with
    | nil => simp at hmem
    | cons g rest ih =>
      rcases List.mem_cons.mp hmem with heq | hmem2
      · subst heq
        rw [_check_file_size, if_pos hgt]
        exact List.mem_cons_self _ _
      · rw [_check_file_size]
        by_cases hg : g.changes.getD 0 > m
        · rw [if_pos hg]
          exact List.mem_cons_of_mem _ (ih hmem2)
        · rw [if_neg hg]
          exact ih hmem2
  · intro fs k hall hgt
    rw [_check_large_pr, if_pos hgt]

/-- C10 witness: a single excluded file (`robodev/a.py`, 501 changed
lines) is still flagged by the size detector and still counted by the
file-count detector. -/
theorem c10_witness :
    sizeMessage ⟨"robodev/a.py", "modified", some 501⟩ 500 ∈
      _check_file_size [⟨"robodev/a.py", "modified", some 501⟩] 500 ∧
    _check_large_pr [⟨"robodev/a.py", "modified", some 501⟩] 0 =
      [largeMessage 1 0] :=
  ⟨c10_size_count_no_exclusion.1 [⟨"robodev/a.py", "modified", some 501⟩] 500
      ⟨"robodev/a.py", "modified", some 501⟩ (by decide) (by decide) (by decide),
   c10_size_count_no_exclusion.2 [⟨"robodev/a.py", "modified", some 501⟩] 0
      (by decide) (by decide)⟩

end Robodev
